import Mathlib

/-!
Shallow embedding of the browser-side controller of the OpenGround news
aggregation client (src/static/app.js and src/static/blindspots.js).

The embedding models the pagination / search / refresh state machine of the
story-list view (`state`, `loadStories`, `loadMore`, `handleSearch`,
`clearSearch`, the category click handler, `refreshData`), the fetch boundary
(`fetchStories`, `fetchTrending`, `fetchBlindspots`), the blindspots renderer
(`renderBlindspots`), and the `localStorage` theme persistence of the two
pages.  JavaScript asynchrony is modelled by splitting each `async` function
at its `await` points: `loadStories` becomes `loadStoriesStart` (the
synchronous prefix up to the `await fetchStories(...)`, which issues the HTTP
request) and `loadStoriesFinish` (the continuation that runs when the fetch
promise settles).  The event loop is single threaded, so every interleaving
of the source is a sequence of these atomic steps (`Event`/`step`).
-/

namespace OpenGround

/-- A story summary as it appears in the `items` array of `/api/stories`
responses.  Only the identity of an item matters to the state machine (the
controller never inspects item fields; `renderStories` does, but rendering
detail is not needed for the paging claims), so we keep the two fields the
list view always displays. -/
structure Story where
  story_id : String
  title : String
deriving Repr, DecidableEq

/-- The parsed JSON body of a `/api/stories` response.  Fields are optional
because the code defends against their absence (`data.total || 0`,
`data.items || []`). -/
structure PageResult where
  total : Option Nat
  items : Option (List Story)
deriving Repr, DecidableEq

/-- Outcome of one `fetch(...)` call followed by `res.json()`:
`rejected` = the fetch promise rejected (network failure);
`response ok body` = an HTTP response arrived with `res.ok = ok`, and
`body = none` when `res.json()` failed to parse (malformed JSON). -/
inductive HttpResult (β : Type) where
  | rejected : HttpResult β
  | response : Bool → Option β → HttpResult β
deriving Repr, DecidableEq

/-- The empty-result fallback `{ last_updated: null, total: 0, items: [] }`
returned by `fetchStories`' catch block (app.js lines 62-65). -/
def storiesFallback : PageResult :=
  { total := some 0, items := some [] }

/-- The function fetchStories (app.js lines 51-66): wraps the fetch in try/catch, throws
on `!res.ok`, and returns the empty-result fallback on any error, so it is a
total function of the wire outcome — its caller never observes an error. -/
def fetchStories : HttpResult PageResult → PageResult
  | HttpResult.rejected => storiesFallback
  | HttpResult.response false _ => storiesFallback
  | HttpResult.response true none => storiesFallback
  | HttpResult.response true (some body) => body

/-- Whether a wire outcome is a failure in the spec's taxonomy: a
NetworkError (fetch rejected or non-2xx status) or a ParseError (malformed
JSON). -/
def isFetchFailure {β : Type} : HttpResult β → Bool
  | HttpResult.rejected => true
  | HttpResult.response k body => !k || body.isNone

/-- The mutable module-level `state` object of app.js (lines 2-11). -/
structure AppState where
  category : String
  query : String
  stories : List Story
  offset : Nat
  limit : Nat
  hasMore : Bool
  loading : Bool
  categories : List String
deriving Repr, DecidableEq

/-- The initial `state` literal (app.js lines 2-11). -/
def initState : AppState :=
  { category := "All", query := "", stories := [], offset := 0, limit := 30,
    hasMore := true, loading := false, categories := [] }

/-- The query parameters captured at the moment `fetchStories(state.category,
state.query, state.limit, state.offset)` is invoked (app.js line 232): the
arguments are read synchronously before the `await` suspends. -/
structure Request where
  category : String
  query : String
  limit : Nat
  offset : Nat
deriving Repr, DecidableEq

/-- The whole-system state: the `state` object, the at-most-one pending
`fetchStories` promise awaited inside `loadStories` (with the parameters its
request was issued under), the disabled flag of the refresh button, and an
instrumentation counter of how many `/api/stories` requests have been issued
(it models no source variable; it only counts fetch calls so that "exactly
one fetch" is expressible). -/
structure Sys where
  st : AppState
  inflight : Option Request
  refreshBtnDisabled : Bool
  fetchCount : Nat
deriving Repr, DecidableEq

/-- What `loadStories` writes into the `#grid` element. -/
inductive GridRender where
  /-- the spinner placeholder written at the start of an offset-0 load -/
  | spinner : GridRender
  /-- the story-card markup produced by `renderStories` from a non-empty
  list, or from an empty list while `loading` is still true -/
  | storiesHtml : List Story → GridRender
  /-- the "No stories found" message of `renderStories` -/
  | emptyMessage : GridRender
  /-- the "Failed to load" affordance with a Retry button written by the
  catch block of `loadStories` (app.js lines 248-255) -/
  | failedToLoad : GridRender
deriving Repr, DecidableEq

/-- The function renderStories (app.js lines 126-180): the empty message is shown only
when the list is empty AND no load is in progress; otherwise the card grid
markup is emitted. -/
def renderStoriesView (st : AppState) : GridRender :=
  if st.stories = [] ∧ st.loading = false then GridRender.emptyMessage
  else GridRender.storiesHtml st.stories

/-- The synchronous prefix of `loadStories` (app.js lines 212-232): drop the
call if `state.loading` is already true; otherwise set `loading`, (show the
spinner when offset is 0,) and issue the `/api/stories` request with the
current category/query/limit/offset. -/
def loadStoriesStart (sys : Sys) : Sys :=
  if sys.st.loading then sys
  else
    { sys with
      st := { sys.st with loading := true },
      inflight := some
        { category := sys.st.category, query := sys.st.query,
          limit := sys.st.limit, offset := sys.st.offset },
      fetchCount := sys.fetchCount + 1 }

/-- The success path of `loadStories` after `await fetchStories(...)`
resolves (app.js lines 235-241), reading the CURRENT `state.offset` (not the
offset the request was issued under), plus the `finally` clause that clears
`loading` (line 258). -/
def applyPage (st : AppState) (data : PageResult) : AppState :=
  let items := data.items.getD []
  let total := data.total.getD 0
  let stories := if st.offset = 0 then items else st.stories ++ items
  { st with stories := stories,
            hasMore := decide (stories.length < total),
            loading := false }

/-- The continuation of `loadStories` once the awaited fetch settles (app.js
lines 232-259).  `fetchStories` never throws, so the try body always takes
the success path: merge the (possibly fallback) page, recompute `hasMore`,
call `renderStories` (while `loading` is still true — the `finally` runs
after it), then clear `loading`.  The catch block (which would produce
`GridRender.failedToLoad`) is unreachable from a fetch outcome.  When no
fetch is pending there is nothing to resolve and the state is unchanged. -/
def loadStoriesFinish (sys : Sys) (outcome : HttpResult PageResult) :
    Sys × Option GridRender :=
  match sys.inflight with
  | none => (sys, none)
  | some _ =>
      let data := fetchStories outcome
      let st' := applyPage sys.st data
      let render := renderStoriesView { st' with loading := true }
      ({ sys with st := st', inflight := none }, some render)

/-- The function loadMore (app.js lines 268-271): unconditionally advance
`state.offset` by `state.limit`, then call `loadStories()`. -/
def loadMore (sys : Sys) : Sys :=
  loadStoriesStart { sys with st := { sys.st with offset := sys.st.offset + sys.st.limit } }

/-- The debounced callback body of `handleSearch` (app.js lines 277-282),
applied with the value the input holds when the timer fires: set
`state.query`, reset `offset`, clear `stories`, call `loadStories()`. -/
def searchSettle (sys : Sys) (text : String) : Sys :=
  loadStoriesStart
    { sys with st := { sys.st with query := text, offset := 0, stories := [] } }

/-- The function clearSearch (app.js lines 285-292). -/
def clearSearch (sys : Sys) : Sys :=
  loadStoriesStart
    { sys with st := { sys.st with query := "", offset := 0, stories := [] } }

/-- The category-button click handler installed by `renderCategories`
(app.js lines 111-123): no-op when the clicked category is already active;
otherwise switch category, reset offset, clear stories, and call
`loadStories()`. -/
def clickCategory (sys : Sys) (cat : String) : Sys :=
  if cat = sys.st.category then sys
  else
    loadStoriesStart
      { sys with st := { sys.st with category := cat, offset := 0, stories := [] } }

/-- The atomic steps of the story-list event loop: each constructor is one
synchronous run-to-completion segment of the source. -/
inductive Event where
  /-- the call of loadStories() invoked directly (initial load, Retry button) -/
  | callLoadStories : Event
  /-- the pending `/api/stories` fetch settles with the given wire outcome -/
  | resolveFetch : HttpResult PageResult → Event
  /-- the "load more" button is clicked (`loadMore`) -/
  | clickLoadMore : Event
  /-- the 300 ms search debounce timer fires with the input holding `text` -/
  | debounceFire : String → Event
  /-- the clear-search button is clicked -/
  | clickClear : Event
  /-- a category button is clicked -/
  | clickCategory : String → Event
deriving Repr, DecidableEq

/-- One step of the story-list event loop. -/
def step (sys : Sys) : Event → Sys
  | Event.callLoadStories => loadStoriesStart sys
  | Event.resolveFetch o => (loadStoriesFinish sys o).1
  | Event.clickLoadMore => loadMore sys
  | Event.debounceFire t => searchSettle sys t
  | Event.clickClear => clearSearch sys
  | Event.clickCategory c => clickCategory sys c

/-- The invariant of the load cycle: `state.loading` is true exactly while a
`/api/stories` fetch is in flight. -/
def LoadingInv (sys : Sys) : Prop :=
  sys.st.loading = sys.inflight.isSome

instance (sys : Sys) : Decidable (LoadingInv sys) := by
  unfold LoadingInv; infer_instance

/-! ### Debounced search (`handleSearch`, app.js lines 274-283)

Each input event clears the pending timer (if any) and schedules the
callback 300 ms later.  A keystroke therefore cancels the previous timer
exactly when it arrives before that timer fires; a timer that has already
fired cannot be cancelled. -/

/-- The fixed debounce delay of `handleSearch` (app.js line 282). -/
def debounceDelay : Nat := 300

/-- One input event: the time it occurs and the value the input field holds
from that moment on (until the next keystroke). -/
structure Keystroke where
  time : Nat
  text : String
deriving Repr, DecidableEq

/-- Which scheduled debounce callbacks actually fire, for a time-ordered
sequence of keystrokes: keystroke `k1`'s timer fires iff no further
keystroke arrives within `debounceDelay` of it (the next keystroke's
`clearTimeout` only cancels a timer that has not fired yet); the last
keystroke's timer always fires. -/
def timerFires : List Keystroke → List Keystroke
  | [] => []
  | [k] => [k]
  | k1 :: k2 :: rest =>
      (if k1.time + debounceDelay ≤ k2.time then [k1] else []) ++
        timerFires (k2 :: rest)

/-- The value the search input holds at time `t`: the text of the last
keystroke at or before `t` (the empty string before any keystroke).  The
fired callback reads `e.target.value`, i.e. this value at its fire time,
not the value captured when the timer was scheduled. -/
def inputValueAt (ks : List Keystroke) (t : Nat) : String :=
  ((ks.filter (fun k => k.time ≤ t)).getLastD { time := 0, text := "" }).text

/-! ### Refresh (`refreshData`, app.js lines 68-95) -/

/-- The parsed JSON body of a `/api/refresh` response; `added_articles` and
`stories` are read without defaulting (only interpolated into the toast). -/
structure RefreshResp where
  ok : Bool
  added_articles : Option Nat
  stories : Option Nat
deriving Repr, DecidableEq

/-- The transient notification `showToast` displays at the end of
`refreshData`. -/
inductive Toast where
  /-- the success toast, "✓ Added N articles, M stories" -/
  | success : Option Nat → Option Nat → Toast
  /-- the failure toast, "✗ Refresh failed" -/
  | failure : Toast
deriving Repr, DecidableEq

/-- The synchronous prefix of `refreshData` (app.js lines 72-76): disable
the refresh button and issue the POST. -/
def refreshStart (sys : Sys) : Sys :=
  { sys with refreshBtnDisabled := true }

/-- The rest of `refreshData` once the `/api/refresh` fetch settles (app.js
lines 76-94), given also the wire outcome of the page-0 reload it performs
on success.  Note no `res.ok` check: any response whose body parses is used,
and `data.ok` alone selects the branch.  On `data.ok`: reset offset, clear
stories, `await loadStories()` (modelled by running its start and finish
segments with the given page outcome; exact when no other load is in flight,
which the theorems about this function assume), then the success toast.  On
a rejected fetch, a malformed body, or `data.ok` false: the catch block
shows the failure toast and touches no state.  The `finally` clause
re-enables the button on every path. -/
def refreshResolve (sys : Sys) (resp : HttpResult RefreshResp)
    (page : HttpResult PageResult) : Sys × Toast :=
  match resp with
  | HttpResult.response _ (some d) =>
      if d.ok then
        let s1 : Sys := { sys with st := { sys.st with offset := 0, stories := [] } }
        let s2 := loadStoriesStart s1
        let s3 := (loadStoriesFinish s2 page).1
        ({ s3 with refreshBtnDisabled := false },
         Toast.success d.added_articles d.stories)
      else ({ sys with refreshBtnDisabled := false }, Toast.failure)
  | _ => ({ sys with refreshBtnDisabled := false }, Toast.failure)

/-! ### The trending and blindspots fetch boundaries -/

/-- The error a fetch operation can propagate to its caller. -/
inductive FetchError where
  /-- the fetch promise rejected (network failure) -/
  | network : FetchError
  /-- the call res.json() failed to parse -/
  | parse : FetchError
deriving Repr, DecidableEq

/-- The parsed JSON body of `/api/trending`. -/
structure TrendingData where
  topics : Option (List String)
deriving Repr, DecidableEq

/-- The function fetchTrending (app.js lines 763-766): a fetch followed directly by
`res.json()` with NO try/catch and NO `res.ok` check — a rejected fetch or a
malformed body propagates as an error to the caller, and any response whose
body parses is returned whatever its HTTP status. -/
def fetchTrending : HttpResult TrendingData → Except FetchError TrendingData
  | HttpResult.rejected => Except.error FetchError.network
  | HttpResult.response _ none => Except.error FetchError.parse
  | HttpResult.response _ (some body) => Except.ok body

/-- A blindspot item as read by `renderBlindspots` (blindspots.js lines
59-104).  Every field the renderer dereferences is optional in the incoming
JSON; the JS field `lean` is modelled as `leanLabel`. -/
structure BlindspotItem where
  story_id : Option String
  title : Option String
  coverage : Option Int
  leanLabel : Option String
  bias_score : Option Rat
  bias_left : Option Rat
  bias_center : Option Rat
  bias_right : Option Rat
  bias_unknown : Option Rat
  kind : Option String
deriving Repr, DecidableEq

/-- The parsed JSON body of `/api/blindspots`. -/
structure BlindspotsData where
  items : Option (List BlindspotItem)
deriving Repr, DecidableEq

/-- The function fetchBlindspots (blindspots.js lines 19-22): same shape as
`fetchTrending` — no error handling at the fetch boundary. -/
def fetchBlindspots : HttpResult BlindspotsData → Except FetchError BlindspotsData
  | HttpResult.rejected => Except.error FetchError.network
  | HttpResult.response _ none => Except.error FetchError.parse
  | HttpResult.response _ (some body) => Except.ok body

/-- What `loadTrending` (app.js lines 858-887) leaves in the grid. -/
inductive TrendRender where
  | topicsHtml : List String → TrendRender
  /-- the "Failed to load" message of the catch block (app.js lines 878-883) -/
  | failedToLoad : TrendRender
deriving Repr, DecidableEq

/-- The continuation of `loadTrending` after `await fetchTrending()` settles
(app.js lines 871-886): on success store `data.topics || []` and render; the
propagated fetch error is caught here and the failure message rendered with
`topics` unchanged; `finally` clears `loading` on both paths. -/
def loadTrendingResolve (topics : List String)
    (res : Except FetchError TrendingData) : List String × Bool × TrendRender :=
  match res with
  | Except.ok d => (d.topics.getD [], false, TrendRender.topicsHtml (d.topics.getD []))
  | Except.error _ => (topics, false, TrendRender.failedToLoad)

/-! ### The blindspots renderer (`renderBlindspots`, blindspots.js 46-107) -/

/-- The runtime error a card computation can throw. -/
inductive JsError where
  /-- a TypeError, e.g. reading `.includes` of `undefined` -/
  | typeError : JsError
deriving Repr, DecidableEq

/-- One rendered blindspot card: the data `renderBlindspots` interpolates
into the template string for one item. -/
structure RenderedCard where
  badgeClass : String
  kindText : String
  title : Option String
  coverage : Option Int
  leanText : String
  scoreText : Rat
  segments : List (String × Rat)
deriving Repr, DecidableEq

/-- Character-list scan for the substring `"Left"`. -/
def charsHaveLeft : List Char → Bool
  | [] => false
  | 'L' :: 'e' :: 'f' :: 't' :: _ => true
  | _ :: rest => charsHaveLeft rest

/-- JS `k.includes("Left")`: substring containment. -/
def kindIncludesLeft (k : String) : Bool :=
  charsHaveLeft k.data

/-- The per-item body of `renderBlindspots` (blindspots.js lines 59-104).
Every field is defaulted before use (`item.bias_bar || {}`, `bar.left || 0`,
`item.lean || 'Unknown'`, `item.bias_score?.toFixed(2) || '0.00'`,
`escapeHtml` coercing a missing title) EXCEPT `item.kind`, which is
dereferenced bare on line 69 (`item.kind.includes('Left')`) and therefore
throws a TypeError when absent. -/
def renderBlindspotItem (item : BlindspotItem) : Except JsError RenderedCard :=
  match item.kind with
  | none => Except.error JsError.typeError
  | some k =>
      let segments :=
        [("left", item.bias_left.getD 0), ("center", item.bias_center.getD 0),
         ("right", item.bias_right.getD 0), ("unknown", item.bias_unknown.getD 0)].filter
          (fun s => decide (0 < s.2))
      Except.ok
        { badgeClass := if kindIncludesLeft k then "badge-left" else "badge-right",
          kindText := k,
          title := item.title,
          coverage := item.coverage,
          leanText := item.leanLabel.getD "Unknown",
          scoreText := item.bias_score.getD 0,
          segments := segments }

/-- The map of renderBlindspots over the item list (blindspots.js line 59): the
first item whose card computation throws aborts the whole rendering. -/
def renderBlindspots (items : List BlindspotItem) : Except JsError (List RenderedCard) :=
  items.mapM renderBlindspotItem

/-! ### Theme persistence (`initTheme`/`toggleTheme` of both pages) -/

/-- The browser's `localStorage`, as a partial map from keys to values. -/
def Storage : Type := String → Option String

/-- The browser operation localStorage.setItem. -/
def setItem (s : Storage) (k v : String) : Storage :=
  fun k2 => if k2 = k then some v else s k2

/-- The storage key used by app.js (story list, story detail and trending
pages). -/
def appThemeKey : String := "openground-theme"

/-- The storage key used by blindspots.js. -/
def blindThemeKey : String := "theme"

/-- The function initTheme of app.js (lines 14-17): read `openground-theme`, default
`'dark'`; the result is the `data-theme` attribute applied to the page. -/
def appInitTheme (s : Storage) : String :=
  (s appThemeKey).getD "dark"

/-- The function initTheme of blindspots.js (lines 6-9): read `theme`, default
`'light'`. -/
def blindInitTheme (s : Storage) : String :=
  (s blindThemeKey).getD "light"

/-- The flip both `toggleTheme` functions apply to the current `data-theme`
attribute value. -/
def nextTheme (current : String) : String :=
  if current = "dark" then "light" else "dark"

/-- The function toggleTheme of app.js (lines 19-25): writes only `openground-theme`. -/
def appToggleTheme (s : Storage) (current : String) : Storage :=
  setItem s appThemeKey (nextTheme current)

/-- The function toggleTheme of blindspots.js (lines 11-16): writes only `theme`. -/
def blindToggleTheme (s : Storage) (current : String) : Storage :=
  setItem s blindThemeKey (nextTheme current)

/-! ### Concrete fixtures used by the witnesses and counterexamples -/

/-- A concrete story item. -/
def storyA : Story := { story_id := "a", title := "Story A" }

/-- A concrete story item. -/
def storyB : Story := { story_id := "b", title := "Story B" }

/-- A concrete story item. -/
def storyC : Story := { story_id := "c", title := "Story C" }

/-- A concrete story item. -/
def storyD : Story := { story_id := "d", title := "Story D" }

/-- A successful `/api/stories` response with the given total and items. -/
def pageOk (total : Nat) (items : List Story) : HttpResult PageResult :=
  HttpResult.response true (some { total := some total, items := some items })

/-- The system at view load: the initial `state`, no fetch pending. -/
def idleSys : Sys :=
  { st := initState, inflight := none, refreshBtnDisabled := false, fetchCount := 0 }

/-- An idle system whose last page load reported no further pages
(`hasMore = false`). -/
def noMoreSys : Sys :=
  { st := { initState with hasMore := false }, inflight := none,
    refreshBtnDisabled := false, fetchCount := 0 }

/-- A system with a page fetch in flight (`loading = true`). -/
def loadingBusySys : Sys :=
  { st := { initState with loading := true },
    inflight := some { category := "All", query := "", limit := 30, offset := 0 },
    refreshBtnDisabled := false, fetchCount := 1 }

/-- A system in the middle of an offset-0 load that had accumulated stories
(e.g. a direct `loadStories()` retry at offset 0 after a page-0 load). -/
def busyZeroSys : Sys :=
  { st := { initState with stories := [storyA], loading := true },
    inflight := some { category := "All", query := "", limit := 30, offset := 0 },
    refreshBtnDisabled := false, fetchCount := 1 }

/-- The story returned by the stale in-flight fetch of the C6 scenario. -/
def staleStory : Story := { story_id := "stale", title := "Story for the old category" }

/-- The starting point of the stale-response scenario: category "All" loaded
one story (limit 1), nothing in flight. -/
def c6startSys : Sys :=
  { st := { initState with limit := 1, stories := [storyA], categories := ["All", "Tech"] },
    inflight := none, refreshBtnDisabled := false, fetchCount := 0 }

/-- The stale-response scenario after "load more" is clicked: a fetch for
category "All", offset 1 is now in flight. -/
def c6afterMore : Sys := step c6startSys Event.clickLoadMore

/-- The scenario after the user switches to category "Tech" while that fetch
is still in flight: the `loadStories()` for "Tech" is dropped by the
`loading` guard. -/
def c6afterSwitch : Sys := step c6afterMore (Event.clickCategory "Tech")

/-- The scenario once the stale "All" response finally lands. -/
def c6final : Sys :=
  step c6afterSwitch (Event.resolveFetch (pageOk 3 [staleStory]))

/-- A rapid three-keystroke search burst, each keystroke well inside the
300 ms debounce window of the previous one. -/
def burst : List Keystroke :=
  [{ time := 0, text := "n" }, { time := 100, text := "ne" }, { time := 250, text := "new" }]

/-- A blindspot item with every field the renderer reads present EXCEPT
`kind`. -/
def kindlessItem : BlindspotItem :=
  { story_id := some "s1", title := some "Covered title", coverage := some 3,
    leanLabel := some "Left", bias_score := some (1 / 2),
    bias_left := some (3 / 4), bias_center := some (1 / 4),
    bias_right := some 0, bias_unknown := some 0, kind := none }

/-- A blindspot item carrying ONLY a `kind`: every defaulted field is
absent. -/
def bareKindItem : BlindspotItem :=
  { story_id := none, title := none, coverage := none, leanLabel := none,
    bias_score := none, bias_left := none, bias_center := none,
    bias_right := none, bias_unknown := none, kind := some "Right Blindspot" }

/-- An empty `localStorage`. -/
def emptyStorage : Storage := fun _ => none

/-! ### Helper lemmas -/

/-- A re-entrant `loadStories()` call is dropped without any state change. -/
theorem loadStoriesStart_dropped (sys : Sys) (h : sys.st.loading = true) :
    loadStoriesStart sys = sys := by
  simp [loadStoriesStart, h]

/-- The start segment of `loadStories` preserves the loading/in-flight
invariant. -/
theorem loadingInv_start (sys : Sys) (h : LoadingInv sys) :
    LoadingInv (loadStoriesStart sys) := by
  unfold LoadingInv loadStoriesStart at *
  by_cases hl : sys.st.loading
  · simp [hl]
    exact h.symm.trans hl
  · simp [hl]

/-- Every event of the story-list event loop preserves the loading/in-flight
invariant. -/
theorem loadingInv_step (sys : Sys) (e : Event) (h : LoadingInv sys) :
    LoadingInv (step sys e) := by
  cases e with
  | callLoadStories => exact loadingInv_start sys h
  | resolveFetch o =>
      unfold LoadingInv step loadStoriesFinish at *
      cases hi : sys.inflight with
      | none => simpa [hi] using h
      | some r => simp [hi, applyPage]
  | clickLoadMore =>
      unfold step loadMore
      apply loadingInv_start
      simpa [LoadingInv] using h
  | debounceFire t =>
      unfold step searchSettle
      apply loadingInv_start
      simpa [LoadingInv] using h
  | clickClear =>
      unfold step clearSearch
      apply loadingInv_start
      simpa [LoadingInv] using h
  | clickCategory c =>
      unfold step clickCategory
      by_cases hc : c = sys.st.category
      · simpa [hc] using h
      · simp only [hc, if_false]
        apply loadingInv_start
        simpa [LoadingInv] using h

/-- Resolving the in-flight fetch always clears `loading` and empties the
in-flight slot (the `finally` discipline). -/
theorem resolve_clears_loading (sys : Sys) (o : HttpResult PageResult)
    (h : sys.inflight.isSome = true) :
    (step sys (Event.resolveFetch o)).st.loading = false ∧
    (step sys (Event.resolveFetch o)).inflight = none := by
  unfold step loadStoriesFinish
  cases hi : sys.inflight with
  | none => simp [hi] at h
  | some r => simp [hi, applyPage]

/-- In a keystroke burst whose consecutive gaps are all below the debounce
delay, only the final keystroke's timer fires. -/
theorem timerFires_coalesce (ks : List Keystroke) (h : ks ≠ [])
    (hchain : List.Chain' (fun a b => a.time < b.time ∧ b.time < a.time + debounceDelay) ks) :
    timerFires ks = [ks.getLast h] := by
  induction ks with
  | nil => exact absurd rfl h
  | cons k1 rest ih =>
      cases rest with
      | nil => rfl
      | cons k2 rest2 =>
          rw [List.chain'_cons] at hchain
          have hlt := hchain.1.2
          have hng : ¬ (k1.time + debounceDelay ≤ k2.time) := by omega
          unfold timerFires
          simp only [hng, if_false, List.nil_append]
          have hg : (k1 :: k2 :: rest2).getLast h = (k2 :: rest2).getLast (by simp) :=
            List.getLast_cons (by simp)
          rw [hg]
          exact ih (by simp) hchain.2

/-- In a time-ordered keystroke list, every keystroke is at or before the
last one. -/
theorem keystroke_time_le_getLast (ks : List Keystroke) (h : ks ≠ [])
    (hchain : List.Chain' (fun a b => a.time < b.time) ks) :
    ∀ k ∈ ks, k.time ≤ (ks.getLast h).time := by
  induction ks with
  | nil => simp
  | cons k1 rest ih =>
      cases rest with
      | nil =>
          intro k hk
          simp only [List.mem_singleton] at hk
          subst hk
          exact Nat.le_refl _
      | cons k2 rest2 =>
          rw [List.chain'_cons] at hchain
          intro k hk
          rw [List.getLast_cons (by simp)]
          rcases List.mem_cons.mp hk with rfl | hk2
          · have h2 := ih (by simp) hchain.2 k2 (List.mem_cons_self _ _)
            have h1 := hchain.1
            omega
          · exact ih (by simp) hchain.2 k hk2

/-- When the last timer of a time-ordered burst fires (300 ms after the last
keystroke), the input field holds the last keystroke's text, so that is what
the callback's `e.target.value` reads. -/
theorem inputValueAt_fire (ks : List Keystroke) (h : ks ≠ [])
    (hchain : List.Chain' (fun a b => a.time < b.time) ks) :
    inputValueAt ks ((ks.getLast h).time + debounceDelay) = (ks.getLast h).text := by
  unfold inputValueAt
  have hfil : ks.filter (fun k => k.time ≤ (ks.getLast h).time + debounceDelay) = ks := by
    apply List.filter_eq_self.mpr
    intro a ha
    have := keystroke_time_le_getLast ks h hchain a ha
    simp only [decide_eq_true_eq]
    omega
  rw [hfil, List.getLastD_eq_getLast?, List.getLast?_eq_getLast ks h]
  rfl

/-- An item whose `kind` field is present always renders to a card. -/
theorem renderBlindspotItem_ok (item : BlindspotItem) (k : String)
    (hk : item.kind = some k) :
    ∃ c, renderBlindspotItem item = Except.ok c := by
  unfold renderBlindspotItem
  rw [hk]
  exact ⟨_, rfl⟩

/-- Rendering succeeds on every list whose items all carry a `kind`. -/
theorem renderBlindspots_ok_of_kinds (items : List BlindspotItem)
    (h : ∀ it ∈ items, it.kind.isSome = true) :
    ∃ cards, renderBlindspots items = Except.ok cards := by
  induction items with
  | nil => exact ⟨[], rfl⟩
  | cons it rest ih =>
      obtain ⟨k, hk⟩ := Option.isSome_iff_exists.mp (h it (List.mem_cons_self it rest))
      obtain ⟨c, hcitem⟩ := renderBlindspotItem_ok it k hk
      obtain ⟨cards, hc⟩ := ih (fun x hx => h x (List.mem_cons_of_mem _ hx))
      refine ⟨c :: cards, ?_⟩
      unfold renderBlindspots at *
      rw [List.mapM_cons, hcitem, hc]
      rfl

/-! ### Claim C1 -/

/-- Claim C1 (counterexample): `loadMore()` is NOT a no-op when `hasMore` is
false or a load is in progress.  At `noMoreSys` (`hasMore = false`, idle) it
advances `offset` from 0 to 30 and issues a fetch; at `loadingBusySys`
(a load in progress) it still advances `offset` by `limit`, so the state is
not left unchanged. -/
theorem c1_loadMore_counterexample :
    noMoreSys.st.hasMore = false ∧ noMoreSys.st.loading = false ∧
    noMoreSys.st.offset = 0 ∧
    (loadMore noMoreSys).st.offset = 30 ∧
    (loadMore noMoreSys).fetchCount = noMoreSys.fetchCount + 1 ∧
    loadingBusySys.st.loading = true ∧
    (loadMore loadingBusySys).st.offset = loadingBusySys.st.offset + 30 ∧
    loadMore loadingBusySys ≠ loadingBusySys := by decide

/-- Claim C1 (amended): `loadMore()` unconditionally advances `offset` by
`limit`; only the fetch is gated, by the `loading` flag inside
`loadStories`: while a load is in progress no fetch is issued and nothing
besides `offset` changes, and two back-to-back `loadMore()` calls before the
first resolves produce exactly one fetch but advance `offset` by `limit`
TWICE; `hasMore` does not gate `loadMore` at all (the UI merely hides the
button when it is false). -/
theorem c1_loadMore_amended :
    (∀ sys : Sys, (loadMore sys).st.offset = sys.st.offset + sys.st.limit) ∧
    (∀ sys : Sys, sys.st.loading = true →
      (loadMore sys).fetchCount = sys.fetchCount ∧
      (loadMore sys).inflight = sys.inflight ∧
      (loadMore sys).st.stories = sys.st.stories ∧
      (loadMore sys).st.hasMore = sys.st.hasMore ∧
      (loadMore sys).st.loading = true) ∧
    (∀ sys : Sys, sys.st.loading = false →
      (loadMore sys).fetchCount = sys.fetchCount + 1 ∧
      (loadMore (loadMore sys)).fetchCount = sys.fetchCount + 1 ∧
      (loadMore (loadMore sys)).st.offset = sys.st.offset + 2 * sys.st.limit) := by
  refine ⟨?_, ?_, ?_⟩
  · intro sys
    unfold loadMore loadStoriesStart
    by_cases h : sys.st.loading <;> simp [h]
  · intro sys h
    simp [loadMore, loadStoriesStart, h]
  · intro sys h
    unfold loadMore loadStoriesStart
    simp [h]
    omega

/-- Witness for the amended C1 theorem at a concrete idle system. -/
theorem c1_loadMore_amended_witness :
    (loadMore idleSys).st.offset = idleSys.st.offset + idleSys.st.limit ∧
    (loadMore (loadMore idleSys)).fetchCount = idleSys.fetchCount + 1 ∧
    (loadMore (loadMore idleSys)).st.offset = idleSys.st.offset + 2 * idleSys.st.limit :=
  ⟨c1_loadMore_amended.1 idleSys,
   (c1_loadMore_amended.2.2 idleSys (by decide)).2.1,
   (c1_loadMore_amended.2.2 idleSys (by decide)).2.2⟩

/-! ### Claim C2 -/

/-- Claim C2: a successful page merge replaces the accumulated list when the
current offset is 0, appends in order otherwise, and recomputes `hasMore` as
accumulated length < reported total; concretely, a page-0 fetch of
`{total: 2, items: [A, B]}` yields `[A, B]` with `hasMore = false`, and
page-0 `{total: 5, items: [A, B]}` followed by a load-more page
`{total: 5, items: [C, D]}` yields `[A, B, C, D]` with `hasMore = true`. -/
theorem c2_page_merge :
    (∀ (st : AppState) (data : PageResult), st.offset = 0 →
        (applyPage st data).stories = data.items.getD []) ∧
    (∀ (st : AppState) (data : PageResult), st.offset ≠ 0 →
        (applyPage st data).stories = st.stories ++ data.items.getD []) ∧
    (∀ (st : AppState) (data : PageResult),
        (applyPage st data).hasMore =
          decide ((applyPage st data).stories.length < data.total.getD 0)) ∧
    ((step (step idleSys Event.callLoadStories)
        (Event.resolveFetch (pageOk 2 [storyA, storyB]))).st.stories = [storyA, storyB] ∧
     (step (step idleSys Event.callLoadStories)
        (Event.resolveFetch (pageOk 2 [storyA, storyB]))).st.hasMore = false) ∧
    ((step (step (step (step idleSys Event.callLoadStories)
          (Event.resolveFetch (pageOk 5 [storyA, storyB]))) Event.clickLoadMore)
        (Event.resolveFetch (pageOk 5 [storyC, storyD]))).st.stories
          = [storyA, storyB, storyC, storyD] ∧
     (step (step (step (step idleSys Event.callLoadStories)
          (Event.resolveFetch (pageOk 5 [storyA, storyB]))) Event.clickLoadMore)
        (Event.resolveFetch (pageOk 5 [storyC, storyD]))).st.hasMore = true) := by
  refine ⟨?_, ?_, ?_, by decide, by decide⟩
  · intro st data h
    simp [applyPage, h]
  · intro st data h
    simp [applyPage, h]
  · intro st data
    rfl

/-- Witness for C2 at a concrete state and page. -/
theorem c2_page_merge_witness :
    (applyPage initState { total := some 2, items := some [storyA, storyB] }).stories
      = ({ total := some 2, items := some [storyA, storyB] } : PageResult).items.getD [] ∧
    (applyPage { initState with offset := 30, stories := [storyA] }
        { total := some 2, items := some [storyB] }).stories
      = [storyA] ++ ({ total := some 2, items := some [storyB] } : PageResult).items.getD [] :=
  ⟨c2_page_merge.1 initState _ (by decide),
   c2_page_merge.2.1 { initState with offset := 30, stories := [storyA] } _ (by decide)⟩

/-! ### Claim C3 -/

/-- Claim C3: `loading` is true exactly while a page fetch is in flight (the
invariant `LoadingInv` is preserved by every event of the loop), a
`loadStories` call entered while `loading` is true is dropped with no state
change at all, and resolving the in-flight fetch — by success or by the
fallback an error collapses to — always clears `loading` (the try/finally
discipline), leaving no fetch outstanding. -/
theorem c3_loading_invariant :
    (∀ (sys : Sys) (e : Event), LoadingInv sys → LoadingInv (step sys e)) ∧
    (∀ sys : Sys, sys.st.loading = true → step sys Event.callLoadStories = sys) ∧
    (∀ (sys : Sys) (o : HttpResult PageResult), sys.inflight.isSome = true →
        (step sys (Event.resolveFetch o)).st.loading = false ∧
        (step sys (Event.resolveFetch o)).inflight = none) := by
  refine ⟨loadingInv_step, ?_, resolve_clears_loading⟩
  intro sys h
  exact loadStoriesStart_dropped sys h

/-- Witness for C3 at concrete systems and events. -/
theorem c3_loading_invariant_witness :
    LoadingInv (step idleSys Event.clickLoadMore) ∧
    step loadingBusySys Event.callLoadStories = loadingBusySys ∧
    (step loadingBusySys (Event.resolveFetch HttpResult.rejected)).st.loading = false :=
  ⟨c3_loading_invariant.1 idleSys Event.clickLoadMore (by decide),
   c3_loading_invariant.2.1 loadingBusySys (by decide),
   (c3_loading_invariant.2.2 loadingBusySys HttpResult.rejected (by decide)).1⟩

/-! ### Claim C4 -/

/-- Claim C4 (counterexample): a network failure of an offset-0 page load
does NOT leave the accumulated list unchanged and does NOT present the
error affordance.  At `busyZeroSys` (offset 0, accumulated `[storyA]`, fetch
in flight) a rejected fetch collapses to the empty fallback inside
`fetchStories`, so the success path runs: the accumulated list is REPLACED
by `[]`, and the grid shows the ordinary (empty) story markup rather than
the "Failed to load"/Retry affordance. -/
theorem c4_failure_counterexample :
    busyZeroSys.st.offset = 0 ∧
    busyZeroSys.st.stories = [storyA] ∧
    (loadStoriesFinish busyZeroSys HttpResult.rejected).1.st.stories = [] ∧
    (loadStoriesFinish busyZeroSys HttpResult.rejected).2
      = some (GridRender.storiesHtml []) ∧
    (loadStoriesFinish busyZeroSys HttpResult.rejected).2
      ≠ some GridRender.failedToLoad := by decide

/-- Claim C4 (amended): a failed page fetch is collapsed by `fetchStories`
into the empty fallback page, so the load completes through the success
path: at a nonzero offset the accumulated list is unchanged (appending the
empty fallback), but at offset 0 it is REPLACED by the empty list; the
"Failed to load" retry affordance of the catch block is unreachable for
fetch or parse failures; `loading` is cleared on every resolution, and a
guard-skipped call changes nothing. -/
theorem c4_failure_amended :
    (∀ (sys : Sys) (o : HttpResult PageResult), isFetchFailure o = true →
        sys.inflight.isSome = true →
        (loadStoriesFinish sys o).1.st.loading = false ∧
        (sys.st.offset ≠ 0 →
          (loadStoriesFinish sys o).1.st.stories = sys.st.stories) ∧
        (sys.st.offset = 0 →
          (loadStoriesFinish sys o).1.st.stories = [])) ∧
    (∀ (sys : Sys) (o : HttpResult PageResult),
        (loadStoriesFinish sys o).2 ≠ some GridRender.failedToLoad) ∧
    (∀ sys : Sys, sys.st.loading = true → loadStoriesStart sys = sys) := by
  refine ⟨?_, ?_, loadStoriesStart_dropped⟩
  · intro sys o hfail hin
    have hfb : fetchStories o = storiesFallback := by
      cases o with
      | rejected => rfl
      | response k body =>
          cases k with
          | false => rfl
          | true =>
              cases body with
              | none => rfl
              | some b => simp [isFetchFailure] at hfail
    cases hi : sys.inflight with
    | none => simp [hi] at hin
    | some r =>
        unfold loadStoriesFinish
        rw [hi, hfb]
        refine ⟨by simp [applyPage], ?_, ?_⟩
        · intro hoff
          simp [applyPage, hoff, storiesFallback]
        · intro hoff
          simp [applyPage, hoff, storiesFallback]
  · intro sys o
    unfold loadStoriesFinish
    cases hi : sys.inflight with
    | none => simp
    | some r => simp [renderStoriesView]

/-- Witness for the amended C4 theorem at a concrete failing load. -/
theorem c4_failure_amended_witness :
    (loadStoriesFinish busyZeroSys HttpResult.rejected).1.st.loading = false ∧
    (loadStoriesFinish busyZeroSys HttpResult.rejected).1.st.stories = [] ∧
    (loadStoriesFinish busyZeroSys (HttpResult.response false none)).2
      ≠ some GridRender.failedToLoad ∧
    loadStoriesStart loadingBusySys = loadingBusySys :=
  ⟨(c4_failure_amended.1 busyZeroSys HttpResult.rejected (by decide) (by decide)).1,
   (c4_failure_amended.1 busyZeroSys HttpResult.rejected (by decide) (by decide)).2.2 (by decide),
   c4_failure_amended.2.1 busyZeroSys (HttpResult.response false none),
   c4_failure_amended.2.2 loadingBusySys (by decide)⟩

/-! ### Claim C5 -/

/-- Claim C5 (counterexample): not every API fetch collapses errors into a
typed empty fallback.  `fetchTrending` propagates a rejected fetch as a
NetworkError and `fetchBlindspots` propagates malformed JSON as a
ParseError, so their callers observe the errors directly. -/
theorem c5_fetch_boundary_counterexample :
    fetchTrending HttpResult.rejected = Except.error FetchError.network ∧
    fetchBlindspots (HttpResult.response true none) = Except.error FetchError.parse :=
  ⟨rfl, rfl⟩

/-- Claim C5 (amended): `fetchStories` (like `fetchMeta`/`fetchCategories`)
collapses every NetworkError and ParseError into its typed empty-result
fallback so its caller never observes them; `fetchTrending` and
`fetchBlindspots` instead have NO handling at the fetch boundary — a
rejection or malformed body propagates to the page loader, which catches it
and renders its own failure state (while they return any body that parses,
whatever the HTTP status, ignoring `res.ok`). -/
theorem c5_fetch_boundary_amended :
    (∀ o : HttpResult PageResult, isFetchFailure o = true →
        fetchStories o = storiesFallback) ∧
    (fetchTrending HttpResult.rejected = Except.error FetchError.network ∧
     (∀ k : Bool, fetchTrending (HttpResult.response k none) = Except.error FetchError.parse) ∧
     (∀ (k : Bool) (b : TrendingData),
        fetchTrending (HttpResult.response k (some b)) = Except.ok b)) ∧
    (fetchBlindspots HttpResult.rejected = Except.error FetchError.network ∧
     (∀ k : Bool, fetchBlindspots (HttpResult.response k none) = Except.error FetchError.parse) ∧
     (∀ (k : Bool) (b : BlindspotsData),
        fetchBlindspots (HttpResult.response k (some b)) = Except.ok b)) ∧
    (∀ (topics : List String) (e : FetchError),
        loadTrendingResolve topics (Except.error e)
          = (topics, false, TrendRender.failedToLoad)) := by
  refine ⟨?_, ⟨rfl, fun k => rfl, fun k b => rfl⟩,
          ⟨rfl, fun k => rfl, fun k b => rfl⟩, fun topics e => rfl⟩
  intro o hfail
  cases o with
  | rejected => rfl
  | response k body =>
      cases k with
      | false => rfl
      | true =>
          cases body with
          | none => rfl
          | some b => simp [isFetchFailure] at hfail

/-- Witness for the amended C5 theorem at a concrete failure. -/
theorem c5_fetch_boundary_amended_witness :
    fetchStories (HttpResult.response false (some storiesFallback)) = storiesFallback ∧
    loadTrendingResolve ["ukraine"] (Except.error FetchError.network)
      = (["ukraine"], false, TrendRender.failedToLoad) :=
  ⟨c5_fetch_boundary_amended.1 (HttpResult.response false (some storiesFallback)) (by decide),
   c5_fetch_boundary_amended.2.2.2 ["ukraine"] FetchError.network⟩

/-! ### Claim C6 -/

/-- Claim C6 (counterexample): a stale response IS applied after the filter
changed.  From `c6startSys`, "load more" puts a fetch for category "All"
(offset 1) in flight; switching to "Tech" resets offset/stories but its
`loadStories()` is dropped by the `loading` guard (`fetchCount` stays 1, so
no "Tech" request is ever issued); when the stale "All" response lands, the
merge reads the CURRENT offset 0 and REPLACES the story list with the stale
item while `state.category` is "Tech". -/
theorem c6_stale_response_counterexample :
    c6afterMore.inflight
      = some { category := "All", query := "", limit := 1, offset := 1 } ∧
    c6afterSwitch.st.category = "Tech" ∧
    c6afterSwitch.st.stories = [] ∧
    c6afterSwitch.st.offset = 0 ∧
    c6afterSwitch.fetchCount = 1 ∧
    c6final.st.category = "Tech" ∧
    c6final.st.stories = [staleStory] ∧
    c6final.fetchCount = 1 := by decide

/-- Claim C6 (amended): at most one page fetch is outstanding because the
`loading` flag drops re-entrant loads — a category click during an in-flight
fetch issues no new request and leaves the pending one in place — but no
response is discarded for having been issued under an earlier filter state:
when the pending fetch then resolves, its items are merged under the NEW
category, and since the switch reset the offset to 0 they wholly replace the
new category's story list. -/
theorem c6_stale_response_amended :
    (∀ (sys : Sys) (c : String), sys.st.loading = true →
        (step sys (Event.clickCategory c)).fetchCount = sys.fetchCount ∧
        (step sys (Event.clickCategory c)).inflight = sys.inflight) ∧
    (∀ (sys : Sys) (c : String) (pr : PageResult),
        sys.st.loading = true → sys.inflight.isSome = true →
        c ≠ sys.st.category →
        (step (step sys (Event.clickCategory c))
            (Event.resolveFetch (HttpResult.response true (some pr)))).st.category = c ∧
        (step (step sys (Event.clickCategory c))
            (Event.resolveFetch (HttpResult.response true (some pr)))).st.stories
          = pr.items.getD []) := by
  constructor
  · intro sys c h
    unfold step clickCategory
    by_cases hc : c = sys.st.category
    · simp [hc]
    · simp only [hc, if_false]
      simp [loadStoriesStart, h]
  · intro sys c pr hload hin hc
    unfold step clickCategory
    simp only [hc, if_false]
    rw [loadStoriesStart_dropped _ (by simpa using hload)]
    cases hi : sys.inflight with
    | none => rw [hi] at hin; simp at hin
    | some r =>
        unfold loadStoriesFinish
        simp only [hi]
        constructor
        · simp [applyPage]
        · simp [applyPage, fetchStories]

/-- Witness for the amended C6 theorem at the concrete scenario. -/
theorem c6_stale_response_amended_witness :
    c6afterSwitch.fetchCount = c6afterMore.fetchCount ∧
    (step (step c6afterMore (Event.clickCategory "Tech"))
        (Event.resolveFetch (HttpResult.response true
          (some { total := some 3, items := some [staleStory] })))).st.stories
      = ({ total := some 3, items := some [staleStory] } : PageResult).items.getD [] :=
  ⟨(c6_stale_response_amended.1 c6afterMore "Tech" (by decide)).1,
   (c6_stale_response_amended.2 c6afterMore "Tech"
      { total := some 3, items := some [staleStory] }
      (by decide) (by decide) (by decide)).2⟩

/-! ### Claim C7 -/

/-- Claim C7: for a burst of search keystrokes whose consecutive gaps are
all below the 300 ms debounce delay, only the last keystroke's timer fires;
the callback reads the input's value at its fire time, which is the final
text; and its effect on an idle controller is a single fetch issued with the
final text as the query, offset reset to 0 and the accumulated story list
cleared. -/
theorem c7_debounce_coalescing (ks : List Keystroke) (h : ks ≠ [])
    (hchain : List.Chain'
      (fun a b => a.time < b.time ∧ b.time < a.time + debounceDelay) ks)
    (sys : Sys) (hnl : sys.st.loading = false) :
    timerFires ks = [ks.getLast h] ∧
    inputValueAt ks ((ks.getLast h).time + debounceDelay) = (ks.getLast h).text ∧
    (searchSettle sys ((ks.getLast h).text)).st.query = (ks.getLast h).text ∧
    (searchSettle sys ((ks.getLast h).text)).st.offset = 0 ∧
    (searchSettle sys ((ks.getLast h).text)).st.stories = [] ∧
    (searchSettle sys ((ks.getLast h).text)).fetchCount = sys.fetchCount + 1 ∧
    (searchSettle sys ((ks.getLast h).text)).inflight
      = some { category := sys.st.category, query := (ks.getLast h).text,
               limit := sys.st.limit, offset := 0 } := by
  have hmono : List.Chain' (fun a b : Keystroke => a.time < b.time) ks :=
    List.Chain'.imp (fun a b hr => hr.1) hchain
  refine ⟨timerFires_coalesce ks h hchain, inputValueAt_fire ks h hmono, ?_, ?_, ?_, ?_, ?_⟩
  all_goals simp [searchSettle, loadStoriesStart, hnl]

/-- Witness for C7 at a concrete three-keystroke burst on the idle system. -/
theorem c7_debounce_coalescing_witness :
    timerFires burst = [burst.getLast (by decide)] ∧
    inputValueAt burst ((burst.getLast (by decide)).time + debounceDelay)
      = (burst.getLast (by decide)).text ∧
    (searchSettle idleSys ((burst.getLast (by decide)).text)).st.query
      = (burst.getLast (by decide)).text ∧
    (searchSettle idleSys ((burst.getLast (by decide)).text)).st.offset = 0 ∧
    (searchSettle idleSys ((burst.getLast (by decide)).text)).st.stories = [] ∧
    (searchSettle idleSys ((burst.getLast (by decide)).text)).fetchCount
      = idleSys.fetchCount + 1 ∧
    (searchSettle idleSys ((burst.getLast (by decide)).text)).inflight
      = some { category := idleSys.st.category,
               query := (burst.getLast (by decide)).text,
               limit := idleSys.st.limit, offset := 0 } :=
  c7_debounce_coalescing burst (by decide)
    (by simp [burst, debounceDelay, List.chain'_cons]) idleSys (by decide)

/-! ### Claim C8 -/

/-- Claim C8: `refreshData` disables its button for the duration of the
operation (set on entry, cleared by the `finally` on every exit); on a
response whose body has `ok` it resets offset to 0, clears the stories,
reloads page 0 (the fresh page replaces the list) and shows the success
toast with the server-reported counts; on a rejected fetch, a malformed
body, or `ok: false` it shows the failure toast and leaves offset and the
accumulated stories untouched. -/
theorem c8_refresh_cycle :
    (∀ sys : Sys, (refreshStart sys).refreshBtnDisabled = true) ∧
    (∀ (sys : Sys) (k : Bool) (d : RefreshResp) (pr : PageResult),
        sys.st.loading = false → d.ok = true →
        (refreshResolve sys (HttpResult.response k (some d))
            (HttpResult.response true (some pr))).1.st.offset = 0 ∧
        (refreshResolve sys (HttpResult.response k (some d))
            (HttpResult.response true (some pr))).1.st.stories = pr.items.getD [] ∧
        (refreshResolve sys (HttpResult.response k (some d))
            (HttpResult.response true (some pr))).2
          = Toast.success d.added_articles d.stories ∧
        (refreshResolve sys (HttpResult.response k (some d))
            (HttpResult.response true (some pr))).1.refreshBtnDisabled = false) ∧
    (∀ (sys : Sys) (page : HttpResult PageResult),
        refreshResolve sys HttpResult.rejected page
          = ({ sys with refreshBtnDisabled := false }, Toast.failure)) ∧
    (∀ (sys : Sys) (k : Bool) (page : HttpResult PageResult),
        refreshResolve sys (HttpResult.response k none) page
          = ({ sys with refreshBtnDisabled := false }, Toast.failure)) ∧
    (∀ (sys : Sys) (k : Bool) (d : RefreshResp) (page : HttpResult PageResult),
        d.ok = false →
        refreshResolve sys (HttpResult.response k (some d)) page
          = ({ sys with refreshBtnDisabled := false }, Toast.failure)) := by
  refine ⟨fun sys => rfl, ?_, fun sys page => rfl, fun sys k page => rfl, ?_⟩
  · intro sys k d pr hnl hok
    refine ⟨?_, ?_, ?_, ?_⟩ <;>
      simp [refreshResolve, hok, loadStoriesStart, hnl, loadStoriesFinish,
            applyPage, fetchStories]
  · intro sys k d page hok
    simp [refreshResolve, hok]

/-- Witness for C8 at a concrete refresh round-trip. -/
theorem c8_refresh_cycle_witness :
    (refreshStart idleSys).refreshBtnDisabled = true ∧
    (refreshResolve idleSys
        (HttpResult.response true
          (some { ok := true, added_articles := some 12, stories := some 4 }))
        (HttpResult.response true
          (some { total := some 1, items := some [storyA] }))).1.st.stories
      = ({ total := some 1, items := some [storyA] } : PageResult).items.getD [] ∧
    refreshResolve noMoreSys HttpResult.rejected HttpResult.rejected
      = ({ noMoreSys with refreshBtnDisabled := false }, Toast.failure) :=
  ⟨c8_refresh_cycle.1 idleSys,
   (c8_refresh_cycle.2.1 idleSys true
      { ok := true, added_articles := some 12, stories := some 4 }
      { total := some 1, items := some [storyA] } (by decide) (by decide)).2.1,
   c8_refresh_cycle.2.2.1 noMoreSys HttpResult.rejected⟩

/-! ### Claim C9 -/

/-- Claim C9: `renderBlindspots` is total exactly under the precondition
that every item carries a `kind`: any list whose items all have `kind`
renders to cards; an item with every OTHER field present but `kind` absent
throws a TypeError at `item.kind.includes('Left')`; and an item carrying
ONLY `kind` — with `bias_bar`, `lean`, `bias_score` and `title` all absent —
still renders, because every other read field is defaulted. -/
theorem c9_renderBlindspots_kind_precondition :
    (∀ items : List BlindspotItem, (∀ it ∈ items, it.kind.isSome = true) →
        ∃ cards, renderBlindspots items = Except.ok cards) ∧
    (kindlessItem.kind = none ∧
     kindlessItem.bias_left.isSome = true ∧ kindlessItem.leanLabel.isSome = true ∧
     kindlessItem.bias_score.isSome = true ∧ kindlessItem.title.isSome = true ∧
     renderBlindspots [kindlessItem] = Except.error JsError.typeError) ∧
    (bareKindItem.bias_left = none ∧ bareKindItem.leanLabel = none ∧
     bareKindItem.bias_score = none ∧ bareKindItem.title = none ∧
     renderBlindspots [bareKindItem]
       = Except.ok [{ badgeClass := "badge-right", kindText := "Right Blindspot",
                      title := none, coverage := none, leanText := "Unknown",
                      scoreText := 0, segments := [] }]) := by
  refine ⟨renderBlindspots_ok_of_kinds, ⟨rfl, rfl, rfl, rfl, rfl, rfl⟩,
          ⟨rfl, rfl, rfl, rfl, ?_⟩⟩
  rfl

/-- Witness for C9 on a concrete all-kinded list. -/
theorem c9_renderBlindspots_kind_precondition_witness :
    ∃ cards, renderBlindspots [bareKindItem, bareKindItem] = Except.ok cards :=
  c9_renderBlindspots_kind_precondition.1 [bareKindItem, bareKindItem]
    (by intro it hit; simp only [List.mem_cons, List.mem_singleton] at hit
        rcases hit with rfl | rfl | h
        · rfl
        · rfl
        · simp at h)

/-! ### Claim C10 -/

/-- Claim C10: the story-list/trending pages persist the theme under the
key `openground-theme` with default dark, while the blindspots page uses
the distinct key `theme` with default light, so toggling the theme on one
page never changes the initial theme the other page applies. -/
theorem c10_theme_keys_disjoint :
    (∀ (s : Storage) (c : String),
        blindInitTheme (appToggleTheme s c) = blindInitTheme s) ∧
    (∀ (s : Storage) (c : String),
        appInitTheme (blindToggleTheme s c) = appInitTheme s) ∧
    appInitTheme emptyStorage = "dark" ∧
    blindInitTheme emptyStorage = "light" ∧
    appThemeKey ≠ blindThemeKey := by
  refine ⟨?_, ?_, rfl, rfl, by decide⟩
  · intro s c
    simp [blindInitTheme, appToggleTheme, setItem, blindThemeKey, appThemeKey]
  · intro s c
    simp [appInitTheme, blindToggleTheme, setItem, blindThemeKey, appThemeKey]

end OpenGround
